import Mathlib

set_option maxRecDepth 8000

namespace Ishiiruka

/-! Shallow embedding of `Source/Core/VideoCommon/ShaderGenCommon.h`
(`ShaderUid`, `UidChecker`) and
`Source/Core/VideoCommon/TextureConversionShader.cpp`
(the texture-encoding shader generators). -/

/-- Modelled from the spec: `HashAdler32` lives in `Common/Hash` which is not
under src/.  The spec describes it as "a 32-bit order-sensitive checksum
(Adler-32 semantics: two running sums mod 65521, combined as
`(sum2<<16)|sum1`)" over the given bytes. -/
def hashAdler32 (bytes : List Nat) : Nat :=
  let p := bytes.foldl
    (fun ab c => ((ab.1 + c) % 65521, (ab.2 + (ab.1 + c) % 65521) % 65521)) (1, 0)
  p.2 * 65536 + p.1

/-- Model of `ShaderUid<uid_data>`: the union of `uid_data data` and
`u8 values[sizeof(uid_data)]` is modelled as the byte list `values`, together
with the memoized `HASH` member.  The record type's `data.StartValue()` and
`data.NumValues()` are passed explicitly as `start`/`count` where needed. -/
structure ShaderUidM where
  values : List Nat
  HASH : Nat
deriving DecidableEq

/-- The meaningful byte range `[start, start+count)` of a record's bytes,
the range read by `CalculateUIDHash` and the comparison operators. -/
def meaningful (start count : Nat) (values : List Nat) : List Nat :=
  (values.drop start).take count

/-- Model of `ShaderUid::ClearUID`: `memset(values, 0, sizeof(uid_data))`.  Only the
record bytes are zeroed; the `HASH` member is left untouched. -/
def ClearUID (u : ShaderUidM) : ShaderUidM :=
  { values := u.values.map (fun _ => 0), HASH := u.HASH }

/-- Model of `ShaderUid::CalculateUIDHash`: computes the Adler-32 of the meaningful
byte range only when the cached `HASH` is 0; otherwise keeps the cache. -/
def CalculateUIDHash (start count : Nat) (u : ShaderUidM) : ShaderUidM :=
  if u.HASH = 0 then
    { u with HASH := hashAdler32 (meaningful start count u.values) }
  else u

/-- Instrumented `CalculateUIDHash`: the Bool reports whether this call
recomputed the checksum (entered the `HASH == 0` branch). -/
def CalculateUIDHashT (start count : Nat) (u : ShaderUidM) : ShaderUidM × Bool :=
  if u.HASH = 0 then
    ({ u with HASH := hashAdler32 (meaningful start count u.values) }, true)
  else (u, false)

/-- A uid value as seen by `UidChecker`: the raw record bytes.  `operator==`
and the map ordering both look only at the meaningful range. -/
abbrev UidB := List Nat

/-- Model of `ShaderUid::operator==`: `memcmp` of the meaningful byte range. -/
def uidEq (start count : Nat) (a b : UidB) : Bool :=
  decide (meaningful start count a = meaningful start count b)

/-- State of `UidChecker<UidT, CodeT>`: the `m_shaders` map (modelled as an
association list keyed up to `uidEq`) and the `m_uids` vector. -/
structure CheckerState where
  m_shaders : List (UidB × String)
  m_uids : List UidB
deriving DecidableEq

def emptyChecker : CheckerState := ⟨[], []⟩

/-- Model of `UidChecker::Invalidate`: clears both containers. -/
def Invalidate (_ : CheckerState) : CheckerState := ⟨[], []⟩

/-- Model of `std::map` lookup, keyed by the uid's meaningful range. -/
def mapFind (start count : Nat) (m : List (UidB × String)) (k : UidB) : Option String :=
  match m with
  | [] => none
  | e :: rest => if uidEq start count e.1 k then some e.2 else mapFind start count rest k

/-- Model of `m_shaders[new_uid] = v`: `std::map::operator[]` followed by assignment,
i.e. insert-or-assign. -/
def mapAssign (start count : Nat) (m : List (UidB × String)) (k : UidB) (v : String) :
    List (UidB × String) :=
  match m with
  | [] => [(k, v)]
  | e :: rest =>
    if uidEq start count e.1 k then (e.1, v) :: rest
    else e :: mapAssign start count rest k v

/-- Model of `auto& old_code = m_shaders[new_uid]`: `std::map::operator[]` finds the
mapped value, default-inserting an empty string when the key is absent. -/
def mapFindOrInsert (start count : Nat) (m : List (UidB × String)) (k : UidB) :
    String × List (UidB × String) :=
  match m with
  | [] => ("", [(k, "")])
  | e :: rest =>
    if uidEq start count e.1 k then (e.2, e :: rest)
    else
      let r := mapFindOrInsert start count rest k
      (r.1, e :: r.2)

/-- One 32-bit little-endian word read at word index `i` from the record
bytes, as read by the dump loop `((u32*)&new_uid.GetUidData())[i]`.  The loop
runs `GetUidDataSize()` word reads over a record of `GetUidDataSize()` bytes,
so indices past the record are out-of-bounds reads in the C++; they are
modelled as 0. -/
def wordAt (u : UidB) (i : Nat) : Nat :=
  u.getD (4 * i) 0 + 256 * u.getD (4 * i + 1) 0 +
    65536 * u.getD (4 * i + 2) 0 + 16777216 * u.getD (4 * i + 3) 0

/-- The sequence of words printed by the dump loop: one word per iteration,
`GetUidDataSize()` iterations. -/
def dumpWords (u : UidB) : List Nat :=
  (List.range u.length).map (wordAt u)

/-- Grouping of the dumped words 4 per output line (`(i % 4)` separator
logic of the dump loop). -/
def groupsOf4 : List Nat → List (List Nat)
  | [] => []
  | [a] => [[a]]
  | [a, b] => [[a, b]]
  | [a, b, c] => [[a, b, c]]
  | a :: b :: c :: d :: rest => [a, b, c, d] :: groupsOf4 rest

/-- Hex digit as printed by `std::hex` (lowercase). -/
def hexDigit (n : Nat) : Char :=
  if n < 10 then Char.ofNat (48 + n) else Char.ofNat (87 + n)

/-- Model of `std::setw(8) << std::setfill('0') << std::hex << value` for a `u32`
value: exactly 8 hex digits, most significant first. -/
def hex8 (w : Nat) : String :=
  String.mk ((List.range 8).map (fun i => hexDigit (w / 16 ^ (7 - i) % 16)))

/-- The diagnostic file written on a uid mismatch: the old code, the new code
and the grouped hex words of the uid record. -/
structure DumpFile where
  oldCode : String
  newCode : String
  groups : List (List Nat)
deriving DecidableEq

/-- Model of `UidChecker::AddToIndexAndCheck`: if the uid is not indexed yet, index it
and store the code; otherwise compare the stored code with the new one and,
on a mismatch, emit a diagnostic dump (the stored code is not replaced). -/
def AddToIndexAndCheck (start count : Nat) (st : CheckerState)
    (new_code : String) (new_uid : UidB) : CheckerState × Option DumpFile :=
  let uid_is_indexed := st.m_uids.any (fun u => uidEq start count u new_uid)
  if uid_is_indexed then
    let r := mapFindOrInsert start count st.m_shaders new_uid
    if r.1 = new_code then ({ st with m_shaders := r.2 }, none)
    else
      ({ st with m_shaders := r.2 },
        some { oldCode := r.1, newCode := new_code,
               groups := groupsOf4 (dumpWords new_uid) })
  else
    ({ m_shaders := mapAssign start count st.m_shaders new_uid new_code,
       m_uids := st.m_uids ++ [new_uid] }, none)

/-! Embedding of `TextureConversionShader.cpp`. -/

/-- Modelled from the spec: the GX format codes come from
`TextureDecoder.h`, which is not under src/; the values follow the GX
texture/depth format enumeration.  The claims depend only on the constants
being pairwise distinct. -/
def GX_TF_I4 : Nat := 0x0

def GX_TF_I8 : Nat := 0x1

def GX_TF_IA4 : Nat := 0x2

def GX_TF_IA8 : Nat := 0x3

def GX_TF_RGB565 : Nat := 0x4

def GX_TF_RGB5A3 : Nat := 0x5

def GX_TF_RGBA8 : Nat := 0x6

def GX_TF_Z8 : Nat := 0x11

def GX_TF_Z16 : Nat := 0x13

def GX_TF_Z24X8 : Nat := 0x16

def GX_CTF_R4 : Nat := 0x20

def GX_CTF_RA4 : Nat := 0x22

def GX_CTF_RA8 : Nat := 0x23

def GX_CTF_A8 : Nat := 0x27

def GX_CTF_R8 : Nat := 0x28

def GX_CTF_G8 : Nat := 0x29

def GX_CTF_B8 : Nat := 0x2A

def GX_CTF_RG8 : Nat := 0x2B

def GX_CTF_GB8 : Nat := 0x2C

def GX_CTF_Z4 : Nat := 0x30

def GX_CTF_Z8M : Nat := 0x39

def GX_CTF_Z8L : Nat := 0x3A

def GX_CTF_Z16L : Nat := 0x3C

/-- Modelled from the spec: `TexDecoder_GetBlockWidthInTexels` is not under
src/; the spec only says the block width in texels is "derived from the
format".  No claim depends on the table values. -/
def TexDecoder_GetBlockWidthInTexels (format : Nat) : Nat :=
  if format = GX_TF_IA8 || format = GX_TF_RGB565 || format = GX_TF_RGB5A3 ||
     format = GX_TF_RGBA8 || format = GX_CTF_RA8 || format = GX_CTF_RG8 ||
     format = GX_CTF_GB8 || format = GX_TF_Z16 || format = GX_TF_Z24X8 ||
     format = GX_CTF_Z16L then 4 else 8

/-- Modelled from the spec: `TexDecoder_GetBlockHeightInTexels` is not under
src/; the spec only says the block height in texels is "derived from the
format".  No claim depends on the table values. -/
def TexDecoder_GetBlockHeightInTexels (format : Nat) : Nat :=
  if format = GX_TF_I4 || format = GX_CTF_R4 || format = GX_CTF_Z4 then 8 else 4

/-- Modelled from the spec: `TextureConversionShader::GetEncodedSampleCount`
is defined in a file that is not under src/.  No claim depends on the table
values. -/
def GetEncodedSampleCount (format : Nat) : Nat :=
  if format = GX_TF_I4 || format = GX_CTF_R4 || format = GX_CTF_Z4 then 8
  else if format = GX_TF_I8 || format = GX_TF_IA4 || format = GX_CTF_RA4 ||
     format = GX_CTF_A8 || format = GX_CTF_R8 || format = GX_CTF_G8 ||
     format = GX_CTF_B8 || format = GX_TF_Z8 || format = GX_CTF_Z8M ||
     format = GX_CTF_Z8L then 4
  else if format = GX_TF_RGBA8 || format = GX_TF_Z24X8 then 1
  else 2

/-- Modelled from the spec: the uniform-name macro `I_COLORS`
(`PixelShaderGen.h` is not under src/).  No claim depends on its value. -/
def I_COLORS : String := "color"

/-- Modelled from the spec: the constant-register index `C_COLORS`
(`PixelShaderGen.h` is not under src/).  No claim depends on its value. -/
def C_COLORS : Nat := 0

/-- printf `%f` rendering of a whole-number float value (the block sizes and
sample counts are small integers converted to float). -/
def fstr (n : Nat) : String := toString n ++ ".000000"

/-- Digits of zero-padding needed to render `s` in a field of width `k`. -/
def padLeftZeros (k : Nat) (s : String) : String :=
  String.mk (List.replicate (k - s.length) '0') ++ s

/-- printf `%f` rendering of an exactly-representable nonnegative rational
float value (6 decimal places). -/
def formatFixed6 (q : ℚ) : String :=
  let n := (q * 1000000).floor.toNat
  toString (n / 1000000) ++ "." ++ padLeftZeros 6 (toString (n % 1000000))

/-- The process-wide mutable generator state: `IntensityConstantAdded` and
`s_incrementSampleXCount` (file-scope statics of
`TextureConversionShader.cpp`). -/
structure GenState where
  IntensityConstantAdded : Bool
  s_incrementSampleXCount : Nat
deriving DecidableEq

/-- Both statics start out false / 0. -/
def initGenState : GenState := ⟨false, 0⟩

/-- One `WRITE(p, ...)` emission, with all printf arguments substituted.
The emitted shader text is the concatenation of the tokens. -/
inductive Tok where
  | wr (s : String)
deriving DecidableEq

/-- A generator step: reads/updates the process-wide state and emits text. -/
abbrev GenM := GenState → List Tok × GenState

def gemit (t : Tok) : GenM := fun s => ([t], s)

def gpure : GenM := fun s => ([], s)

def gthen (a b : GenM) : GenM := fun s =>
  let r1 := a s
  let r2 := b r1.2
  (r1.1 ++ r2.1, r2.2)

def gall (l : List GenM) : GenM := l.foldr gthen gpure

/-- Model of `WriteRegister` (the local helper of `TextureConversionShaderDX`). -/
def WriteRegisterStr (pre : String) (num : Nat) : String :=
  " : register(" ++ pre ++ toString num ++ ")"

/-- The token list emitted by `WriteSwizzler` (it touches no mutable
state). -/
def swizzlerToks (format : Nat) : List Tok :=
  let blkW := TexDecoder_GetBlockWidthInTexels format
  let blkH := TexDecoder_GetBlockHeightInTexels format
  let samples := GetEncodedSampleCount format
  [ Tok.wr ("uniform float4 " ++ I_COLORS ++ "[2] " ++ WriteRegisterStr "c" C_COLORS ++ ";\n"),
    Tok.wr ("uniform sampler samp0 : register(s0);\n"),
    Tok.wr ("void main(\n"),
    Tok.wr ("  out float4 ocol0 : SV_Target,\n"),
    Tok.wr ("  in float2 uv0 : TEXCOORD0)\n"),
    Tok.wr ("\x7b\n  float2 sampleUv;\n  float2 uv1 = floor(uv0);\n"),
    Tok.wr ("  uv1.x = uv1.x * " ++ fstr samples ++ ";\n"),
    Tok.wr ("  float xl =  floor(uv1.x / " ++ fstr blkW ++ ");\n"),
    Tok.wr ("  float xib = uv1.x - (xl * " ++ fstr blkW ++ ");\n"),
    Tok.wr ("  float yl = floor(uv1.y / " ++ fstr blkH ++ ");\n"),
    Tok.wr ("  float yb = yl * " ++ fstr blkH ++ ";\n"),
    Tok.wr ("  float yoff = uv1.y - yb;\n"),
    Tok.wr ("  float xp = uv1.x + (yoff * " ++ I_COLORS ++ "[1].x);\n"),
    Tok.wr ("  float xel = floor(xp / " ++ fstr blkW ++ ");\n"),
    Tok.wr ("  float xb = floor(xel / " ++ fstr blkH ++ ");\n"),
    Tok.wr ("  float xoff = xel - (xb * " ++ fstr blkH ++ ");\n"),
    Tok.wr ("  sampleUv.x = xib + (xb * " ++ fstr blkW ++ ");\n"),
    Tok.wr ("  sampleUv.y = yb + xoff;\n"),
    Tok.wr ("  sampleUv = sampleUv * " ++ I_COLORS ++ "[0].xy;\n"),
    Tok.wr ("  sampleUv = sampleUv + " ++ I_COLORS ++ "[1].zw;\n"),
    Tok.wr ("  sampleUv = sampleUv + float2(0.0f,1.0f);\n"),
    Tok.wr ("  sampleUv = sampleUv / " ++ I_COLORS ++ "[0].zw;\n") ]

/-- Model of `WriteSwizzler`. -/
def WriteSwizzler (format : Nat) : GenM := fun s => (swizzlerToks format, s)

/-- The token list emitted by `Write32BitSwizzler` (it touches no mutable
state). -/
def swizzler32Toks (format : Nat) : List Tok :=
  let blkW := TexDecoder_GetBlockWidthInTexels format
  let blkH := TexDecoder_GetBlockHeightInTexels format
  [ Tok.wr ("uniform float4 " ++ I_COLORS ++ "[2] " ++ WriteRegisterStr "c" C_COLORS ++ ";\n"),
    Tok.wr ("uniform sampler samp0 : register(s0);\n"),
    Tok.wr ("void main(\n"),
    Tok.wr ("  out float4 ocol0 : COLOR0,\n"),
    Tok.wr ("  in float2 uv0 : TEXCOORD0)\n"),
    Tok.wr ("\x7b\n  float2 sampleUv;\n  float2 uv1 = floor(uv0);\n"),
    Tok.wr ("  float yl = floor(uv1.y / " ++ fstr blkH ++ ");\n"),
    Tok.wr ("  float yb = yl * " ++ fstr blkH ++ ";\n"),
    Tok.wr ("  float yoff = uv1.y - yb;\n"),
    Tok.wr ("  float xp = uv1.x + (yoff * " ++ I_COLORS ++ "[1].x);\n"),
    Tok.wr ("  float xel = floor(xp / 2.0f);\n"),
    Tok.wr ("  float xb = floor(xel / " ++ fstr blkH ++ ");\n"),
    Tok.wr ("  float xoff = xel - (xb * " ++ fstr blkH ++ ");\n"),
    Tok.wr ("  float x2 = uv1.x * 2.0f;\n"),
    Tok.wr ("  float xl = floor(x2 / " ++ fstr blkW ++ ");\n"),
    Tok.wr ("  float xib = x2 - (xl * " ++ fstr blkW ++ ");\n"),
    Tok.wr ("  float halfxb = floor(xb / 2.0f);\n"),
    Tok.wr ("  sampleUv.x = xib + (halfxb * " ++ fstr blkW ++ ");\n"),
    Tok.wr ("  sampleUv.y = yb + xoff;\n"),
    Tok.wr ("  sampleUv = sampleUv * " ++ I_COLORS ++ "[0].xy;\n"),
    Tok.wr ("  sampleUv = sampleUv + " ++ I_COLORS ++ "[1].zw;\n"),
    Tok.wr ("  sampleUv = sampleUv + float2(0.0f,1.0f);\n"),
    Tok.wr ("  sampleUv = sampleUv / " ++ I_COLORS ++ "[0].zw;\n") ]

/-- Model of `Write32BitSwizzler`. -/
def Write32BitSwizzler (format : Nat) : GenM := fun s => (swizzler32Toks format, s)

/-- Model of `WriteSampleColor`: the sample offset is the current value of the
process-wide `s_incrementSampleXCount` counter, printed as `%d.0f`. -/
def WriteSampleColor (colorComp dest : String) : GenM := fun s =>
  ([Tok.wr ("  " ++ dest ++ " = tex2D(samp0, sampleUv + float2(" ++
      toString s.s_incrementSampleXCount ++ ".0f * (" ++ I_COLORS ++
      "[0].x / " ++ I_COLORS ++ "[0].z), 0.0f))." ++ colorComp ++ ";\n")], s)

/-- Model of `WriteColorToIntensity`: declares `IntensityConst` only once per
generation (guarded by `IntensityConstantAdded`). -/
def WriteColorToIntensity (src dest : String) : GenM := fun s =>
  let decl : List Tok :=
    if s.IntensityConstantAdded then []
    else [Tok.wr ("  float4 IntensityConst = float4(0.257f,0.504f,0.098f,0.0625f);\n")]
  (decl ++ [Tok.wr ("  " ++ dest ++ " = dot(IntensityConst.rgb, " ++ src ++ ".rgb);\n")],
   { s with IntensityConstantAdded := true })

/-- Model of `WriteIncrementSampleX`: only bumps the counter; the multiplier is
written out later by `WriteSampleColor`. -/
def WriteIncrementSampleX : GenM := fun s =>
  ([], { s with s_incrementSampleXCount := s.s_incrementSampleXCount + 1 })

/-- The quantization constant `255 / pow(2.0f, (8 - depth))` computed by
`WriteToBitDepth` (exactly representable for the depths used). -/
def bitDepthConst (depth : Nat) : ℚ := 255 / 2 ^ (8 - depth)

/-- Model of `WriteToBitDepth`: emits `dest = floor(src * result)` with
`result = 255 / 2^(8-depth)`. -/
def WriteToBitDepth (depth : Nat) (src dest : String) : GenM :=
  gemit (Tok.wr ("  " ++ dest ++ " = floor(" ++ src ++ " * " ++
    formatFixed6 (bitDepthConst depth) ++ "f);\n"))

/-- The semantics of the quantization step emitted by `WriteToBitDepth`:
`floor(value * (255 / 2^(8-depth)))`. -/
def quantize (depth : Nat) (v : ℚ) : ℤ := Int.floor (v * bitDepthConst depth)

/-- Model of `WriteEncoderEnd`: closes the body and resets both process-wide
statics, regardless of their current values. -/
def WriteEncoderEnd : GenM := fun _ =>
  ([Tok.wr ("\x7d\n")], { IntensityConstantAdded := false, s_incrementSampleXCount := 0 })

/-- Model of `WriteI8Encoder`. -/
def WriteI8Encoder : GenM := gall
  [ WriteSwizzler GX_TF_I8,
    gemit (Tok.wr ("  float3 texSample;\n")),
    WriteSampleColor "rgb" "texSample",
    WriteColorToIntensity "texSample" "ocol0.b",
    WriteIncrementSampleX,
    WriteSampleColor "rgb" "texSample",
    WriteColorToIntensity "texSample" "ocol0.g",
    WriteIncrementSampleX,
    WriteSampleColor "rgb" "texSample",
    WriteColorToIntensity "texSample" "ocol0.r",
    WriteIncrementSampleX,
    WriteSampleColor "rgb" "texSample",
    WriteColorToIntensity "texSample" "ocol0.a",
    gemit (Tok.wr ("  ocol0.rgba += IntensityConst.aaaa;\n")),
    WriteEncoderEnd ]

/-- Model of `WriteI4Encoder`. -/
def WriteI4Encoder : GenM := gall
  [ WriteSwizzler GX_TF_I4,
    gemit (Tok.wr ("  float3 texSample;\n")),
    gemit (Tok.wr ("  float4 color0;\n")),
    gemit (Tok.wr ("  float4 color1;\n")),
    WriteSampleColor "rgb" "texSample",
    WriteColorToIntensity "texSample" "color0.b",
    WriteIncrementSampleX,
    WriteSampleColor "rgb" "texSample",
    WriteColorToIntensity "texSample" "color1.b",
    WriteIncrementSampleX,
    WriteSampleColor "rgb" "texSample",
    WriteColorToIntensity "texSample" "color0.g",
    WriteIncrementSampleX,
    WriteSampleColor "rgb" "texSample",
    WriteColorToIntensity "texSample" "color1.g",
    WriteIncrementSampleX,
    WriteSampleColor "rgb" "texSample",
    WriteColorToIntensity "texSample" "color0.r",
    WriteIncrementSampleX,
    WriteSampleColor "rgb" "texSample",
    WriteColorToIntensity "texSample" "color1.r",
    WriteIncrementSampleX,
    WriteSampleColor "rgb" "texSample",
    WriteColorToIntensity "texSample" "color0.a",
    WriteIncrementSampleX,
    WriteSampleColor "rgb" "texSample",
    WriteColorToIntensity "texSample" "color1.a",
    gemit (Tok.wr ("  color0.rgba += IntensityConst.aaaa;\n")),
    gemit (Tok.wr ("  color1.rgba += IntensityConst.aaaa;\n")),
    WriteToBitDepth 4 "color0" "color0",
    WriteToBitDepth 4 "color1" "color1",
    gemit (Tok.wr ("  ocol0 = (color0 * 16.0f + color1) / 255.0f;\n")),
    WriteEncoderEnd ]

/-- Model of `WriteIA8Encoder`. -/
def WriteIA8Encoder : GenM := gall
  [ WriteSwizzler GX_TF_IA8,
    gemit (Tok.wr ("  float4 texSample;\n")),
    WriteSampleColor "rgba" "texSample",
    gemit (Tok.wr ("  ocol0.b = texSample.a;\n")),
    WriteColorToIntensity "texSample" "ocol0.g",
    WriteIncrementSampleX,
    WriteSampleColor "rgba" "texSample",
    gemit (Tok.wr ("  ocol0.r = texSample.a;\n")),
    WriteColorToIntensity "texSample" "ocol0.a",
    gemit (Tok.wr ("  ocol0.ga += IntensityConst.aa;\n")),
    WriteEncoderEnd ]

/-- Model of `WriteIA4Encoder`. -/
def WriteIA4Encoder : GenM := gall
  [ WriteSwizzler GX_TF_IA4,
    gemit (Tok.wr ("  float4 texSample;\n")),
    gemit (Tok.wr ("  float4 color0;\n")),
    gemit (Tok.wr ("  float4 color1;\n")),
    WriteSampleColor "rgba" "texSample",
    gemit (Tok.wr ("  color0.b = texSample.a;\n")),
    WriteColorToIntensity "texSample" "color1.b",
    WriteIncrementSampleX,
    WriteSampleColor "rgba" "texSample",
    gemit (Tok.wr ("  color0.g = texSample.a;\n")),
    WriteColorToIntensity "texSample" "color1.g",
    WriteIncrementSampleX,
    WriteSampleColor "rgba" "texSample",
    gemit (Tok.wr ("  color0.r = texSample.a;\n")),
    WriteColorToIntensity "texSample" "color1.r",
    WriteIncrementSampleX,
    WriteSampleColor "rgba" "texSample",
    gemit (Tok.wr ("  color0.a = texSample.a;\n")),
    WriteColorToIntensity "texSample" "color1.a",
    gemit (Tok.wr ("  color1.rgba += IntensityConst.aaaa;\n")),
    WriteToBitDepth 4 "color0" "color0",
    WriteToBitDepth 4 "color1" "color1",
    gemit (Tok.wr ("  ocol0 = (color0 * 16.0f + color1) / 255.0f;\n")),
    WriteEncoderEnd ]

/-- Model of `WriteRGB565Encoder`. -/
def WriteRGB565Encoder : GenM := gall
  [ WriteSwizzler GX_TF_RGB565,
    WriteSampleColor "rgb" "float3 texSample0",
    WriteIncrementSampleX,
    WriteSampleColor "rgb" "float3 texSample1",
    gemit (Tok.wr ("  float2 texRs = float2(texSample0.r, texSample1.r);\n")),
    gemit (Tok.wr ("  float2 texGs = float2(texSample0.g, texSample1.g);\n")),
    gemit (Tok.wr ("  float2 texBs = float2(texSample0.b, texSample1.b);\n")),
    WriteToBitDepth 6 "texGs" "float2 gInt",
    gemit (Tok.wr ("  float2 gUpper = floor(gInt / 8.0f);\n")),
    gemit (Tok.wr ("  float2 gLower = gInt - gUpper * 8.0f;\n")),
    WriteToBitDepth 5 "texRs" "ocol0.br",
    gemit (Tok.wr ("  ocol0.br = ocol0.br * 8.0f + gUpper;\n")),
    WriteToBitDepth 5 "texBs" "ocol0.ga",
    gemit (Tok.wr ("  ocol0.ga = ocol0.ga + gLower * 32.0f;\n")),
    gemit (Tok.wr ("  ocol0 = ocol0 / 255.0f;\n")),
    WriteEncoderEnd ]

/-- Model of `WriteRGB5A3Encoder`. -/
def WriteRGB5A3Encoder : GenM := gall
  [ WriteSwizzler GX_TF_RGB5A3,
    gemit (Tok.wr ("  float4 texSample;\n")),
    gemit (Tok.wr ("  float color0;\n")),
    gemit (Tok.wr ("  float gUpper;\n")),
    gemit (Tok.wr ("  float gLower;\n")),
    WriteSampleColor "rgba" "texSample",
    gemit (Tok.wr ("if(texSample.a > 0.878f) \x7b\n")),
    WriteToBitDepth 5 "texSample.g" "color0",
    gemit (Tok.wr ("  gUpper = floor(color0 / 8.0f);\n")),
    gemit (Tok.wr ("  gLower = color0 - gUpper * 8.0f;\n")),
    WriteToBitDepth 5 "texSample.r" "ocol0.b",
    gemit (Tok.wr ("  ocol0.b = ocol0.b * 4.0f + gUpper + 128.0f;\n")),
    WriteToBitDepth 5 "texSample.b" "ocol0.g",
    gemit (Tok.wr ("  ocol0.g = ocol0.g + gLower * 32.0f;\n")),
    gemit (Tok.wr ("\x7d else \x7b\n")),
    WriteToBitDepth 4 "texSample.r" "ocol0.b",
    WriteToBitDepth 4 "texSample.b" "ocol0.g",
    WriteToBitDepth 3 "texSample.a" "color0",
    gemit (Tok.wr ("ocol0.b = ocol0.b + color0 * 16.0f;\n")),
    WriteToBitDepth 4 "texSample.g" "color0",
    gemit (Tok.wr ("ocol0.g = ocol0.g + color0 * 16.0f;\n")),
    gemit (Tok.wr ("\x7d\n")),
    WriteIncrementSampleX,
    WriteSampleColor "rgba" "texSample",
    gemit (Tok.wr ("if(texSample.a > 0.878f) \x7b\n")),
    WriteToBitDepth 5 "texSample.g" "color0",
    gemit (Tok.wr ("  gUpper = floor(color0 / 8.0f);\n")),
    gemit (Tok.wr ("  gLower = color0 - gUpper * 8.0f;\n")),
    WriteToBitDepth 5 "texSample.r" "ocol0.r",
    gemit (Tok.wr ("  ocol0.r = ocol0.r * 4.0f + gUpper + 128.0f;\n")),
    WriteToBitDepth 5 "texSample.b" "ocol0.a",
    gemit (Tok.wr ("  ocol0.a = ocol0.a + gLower * 32.0f;\n")),
    gemit (Tok.wr ("\x7d else \x7b\n")),
    WriteToBitDepth 4 "texSample.r" "ocol0.r",
    WriteToBitDepth 4 "texSample.b" "ocol0.a",
    WriteToBitDepth 3 "texSample.a" "color0",
    gemit (Tok.wr ("ocol0.r = ocol0.r + color0 * 16.0f;\n")),
    WriteToBitDepth 4 "texSample.g" "color0",
    gemit (Tok.wr ("ocol0.a = ocol0.a + color0 * 16.0f;\n")),
    gemit (Tok.wr ("\x7d\n")),
    gemit (Tok.wr ("  ocol0 = ocol0 / 255.0f;\n")),
    WriteEncoderEnd ]

/-- Model of `WriteRGBA8Encoder`. -/
def WriteRGBA8Encoder : GenM := gall
  [ Write32BitSwizzler GX_TF_RGBA8,
    gemit (Tok.wr ("  float cl1 = xb - (halfxb * 2.0f);\n")),
    gemit (Tok.wr ("  float cl0 = 1.0f - cl1;\n")),
    gemit (Tok.wr ("  float4 texSample;\n")),
    gemit (Tok.wr ("  float4 color0;\n")),
    gemit (Tok.wr ("  float4 color1;\n")),
    WriteSampleColor "rgba" "texSample",
    gemit (Tok.wr ("  color0.b = texSample.a;\n")),
    gemit (Tok.wr ("  color0.g = texSample.r;\n")),
    gemit (Tok.wr ("  color1.b = texSample.g;\n")),
    gemit (Tok.wr ("  color1.g = texSample.b;\n")),
    WriteIncrementSampleX,
    WriteSampleColor "rgba" "texSample",
    gemit (Tok.wr ("  color0.r = texSample.a;\n")),
    gemit (Tok.wr ("  color0.a = texSample.r;\n")),
    gemit (Tok.wr ("  color1.r = texSample.g;\n")),
    gemit (Tok.wr ("  color1.a = texSample.b;\n")),
    gemit (Tok.wr ("  ocol0 = (cl0 * color0) + (cl1 * color1);\n")),
    WriteEncoderEnd ]

/-- Model of `WriteC4Encoder`. -/
def WriteC4Encoder (comp : String) : GenM := gall
  [ WriteSwizzler GX_CTF_R4,
    gemit (Tok.wr ("  float4 color0;\n")),
    gemit (Tok.wr ("  float4 color1;\n")),
    WriteSampleColor comp "color0.b",
    WriteIncrementSampleX,
    WriteSampleColor comp "color1.b",
    WriteIncrementSampleX,
    WriteSampleColor comp "color0.g",
    WriteIncrementSampleX,
    WriteSampleColor comp "color1.g",
    WriteIncrementSampleX,
    WriteSampleColor comp "color0.r",
    WriteIncrementSampleX,
    WriteSampleColor comp "color1.r",
    WriteIncrementSampleX,
    WriteSampleColor comp "color0.a",
    WriteIncrementSampleX,
    WriteSampleColor comp "color1.a",
    WriteToBitDepth 4 "color0" "color0",
    WriteToBitDepth 4 "color1" "color1",
    gemit (Tok.wr ("  ocol0 = (color0 * 16.0f + color1) / 255.0f;\n")),
    WriteEncoderEnd ]

/-- Model of `WriteC8Encoder`. -/
def WriteC8Encoder (comp : String) : GenM := gall
  [ WriteSwizzler GX_CTF_R8,
    WriteSampleColor comp "ocol0.b",
    WriteIncrementSampleX,
    WriteSampleColor comp "ocol0.g",
    WriteIncrementSampleX,
    WriteSampleColor comp "ocol0.r",
    WriteIncrementSampleX,
    WriteSampleColor comp "ocol0.a",
    WriteEncoderEnd ]

/-- Model of `WriteCC4Encoder`. -/
def WriteCC4Encoder (comp : String) : GenM := gall
  [ WriteSwizzler GX_CTF_RA4,
    gemit (Tok.wr ("  float2 texSample;\n")),
    gemit (Tok.wr ("  float4 color0;\n")),
    gemit (Tok.wr ("  float4 color1;\n")),
    WriteSampleColor comp "texSample",
    gemit (Tok.wr ("  color0.b = texSample.x;\n")),
    gemit (Tok.wr ("  color1.b = texSample.y;\n")),
    WriteIncrementSampleX,
    WriteSampleColor comp "texSample",
    gemit (Tok.wr ("  color0.g = texSample.x;\n")),
    gemit (Tok.wr ("  color1.g = texSample.y;\n")),
    WriteIncrementSampleX,
    WriteSampleColor comp "texSample",
    gemit (Tok.wr ("  color0.r = texSample.x;\n")),
    gemit (Tok.wr ("  color1.r = texSample.y;\n")),
    WriteIncrementSampleX,
    WriteSampleColor comp "texSample",
    gemit (Tok.wr ("  color0.a = texSample.x;\n")),
    gemit (Tok.wr ("  color1.a = texSample.y;\n")),
    WriteToBitDepth 4 "color0" "color0",
    WriteToBitDepth 4 "color1" "color1",
    gemit (Tok.wr ("  ocol0 = (color0 * 16.0f + color1) / 255.0f;\n")),
    WriteEncoderEnd ]

/-- Model of `WriteCC8Encoder`. -/
def WriteCC8Encoder (comp : String) : GenM := gall
  [ WriteSwizzler GX_CTF_RA8,
    WriteSampleColor comp "ocol0.bg",
    WriteIncrementSampleX,
    WriteSampleColor comp "ocol0.ra",
    WriteEncoderEnd ]

/-- Model of `WriteZ8Encoder`. -/
def WriteZ8Encoder (multiplier : String) : GenM := gall
  [ WriteSwizzler GX_CTF_Z8M,
    gemit (Tok.wr (" float depth;\n")),
    WriteSampleColor "b" "depth",
    gemit (Tok.wr ("ocol0.b = frac(depth * " ++ multiplier ++ ");\n")),
    WriteIncrementSampleX,
    WriteSampleColor "b" "depth",
    gemit (Tok.wr ("ocol0.g = frac(depth * " ++ multiplier ++ ");\n")),
    WriteIncrementSampleX,
    WriteSampleColor "b" "depth",
    gemit (Tok.wr ("ocol0.r = frac(depth * " ++ multiplier ++ ");\n")),
    WriteIncrementSampleX,
    WriteSampleColor "b" "depth",
    gemit (Tok.wr ("ocol0.a = frac(depth * " ++ multiplier ++ ");\n")),
    WriteEncoderEnd ]

/-- Model of `WriteZ16Encoder`. -/
def WriteZ16Encoder : GenM := gall
  [ WriteSwizzler GX_TF_Z16,
    gemit (Tok.wr ("  float depth;\n")),
    gemit (Tok.wr ("  float3 expanded;\n")),
    WriteSampleColor "b" "depth",
    gemit (Tok.wr ("  depth *= 16777215.0f;\n")),
    gemit (Tok.wr ("  expanded.r = floor(depth / (256.0f * 256.0f));\n")),
    gemit (Tok.wr ("  depth -= expanded.r * 256.0f * 256.0f;\n")),
    gemit (Tok.wr ("  expanded.g = floor(depth / 256.0f);\n")),
    gemit (Tok.wr ("  ocol0.b = expanded.g / 255.0f;\n")),
    gemit (Tok.wr ("  ocol0.g = expanded.r / 255.0f;\n")),
    WriteIncrementSampleX,
    WriteSampleColor "b" "depth",
    gemit (Tok.wr ("  depth *= 16777215.0f;\n")),
    gemit (Tok.wr ("  expanded.r = floor(depth / (256.0f * 256.0f));\n")),
    gemit (Tok.wr ("  depth -= expanded.r * 256.0f * 256.0f;\n")),
    gemit (Tok.wr ("  expanded.g = floor(depth / 256.0f);\n")),
    gemit (Tok.wr ("  ocol0.r = expanded.g / 255.0f;\n")),
    gemit (Tok.wr ("  ocol0.a = expanded.r / 255.0f;\n")),
    WriteEncoderEnd ]

/-- Model of `WriteZ16LEncoder`. -/
def WriteZ16LEncoder : GenM := gall
  [ WriteSwizzler GX_CTF_Z16L,
    gemit (Tok.wr ("  float depth;\n")),
    gemit (Tok.wr ("  float3 expanded;\n")),
    WriteSampleColor "b" "depth",
    gemit (Tok.wr ("  depth *= 16777215.0f;\n")),
    gemit (Tok.wr ("  expanded.r = floor(depth / (256.0f * 256.0f));\n")),
    gemit (Tok.wr ("  depth -= expanded.r * 256.0f * 256.0f;\n")),
    gemit (Tok.wr ("  expanded.g = floor(depth / 256.0f);\n")),
    gemit (Tok.wr ("  depth -= expanded.g * 256.0f;\n")),
    gemit (Tok.wr ("  expanded.b = depth;\n")),
    gemit (Tok.wr ("  ocol0.b = expanded.b / 255.0f;\n")),
    gemit (Tok.wr ("  ocol0.g = expanded.g / 255.0f;\n")),
    WriteIncrementSampleX,
    WriteSampleColor "b" "depth",
    gemit (Tok.wr ("  depth *= 16777215.0f;\n")),
    gemit (Tok.wr ("  expanded.r = floor(depth / (256.0f * 256.0f));\n")),
    gemit (Tok.wr ("  depth -= expanded.r * 256.0f * 256.0f;\n")),
    gemit (Tok.wr ("  expanded.g = floor(depth / 256.0f);\n")),
    gemit (Tok.wr ("  depth -= expanded.g * 256.0f;\n")),
    gemit (Tok.wr ("  expanded.b = depth;\n")),
    gemit (Tok.wr ("  ocol0.r = expanded.b / 255.0f;\n")),
    gemit (Tok.wr ("  ocol0.a = expanded.g / 255.0f;\n")),
    WriteEncoderEnd ]

/-- The body of the `for (int i = 0; i < 2; i++)` digit-extraction loop of
`WriteZ24Encoder`, for loop index `i`. -/
def z24LoopToks (i : Nat) : List Tok :=
  [ Tok.wr ("  depth" ++ toString i ++ " *= 16777215.0f;\n"),
    Tok.wr ("  expanded" ++ toString i ++ ".r = floor(depth" ++ toString i ++ " / (256.0f * 256.0f));\n"),
    Tok.wr ("  depth" ++ toString i ++ " -= expanded" ++ toString i ++ ".r * 256.0f * 256.0f;\n"),
    Tok.wr ("  expanded" ++ toString i ++ ".g = floor(depth" ++ toString i ++ " / 256.0f);\n"),
    Tok.wr ("  depth" ++ toString i ++ " -= expanded" ++ toString i ++ ".g * 256.0f;\n"),
    Tok.wr ("  expanded" ++ toString i ++ ".b = depth" ++ toString i ++ ";\n") ]

/-- Model of `WriteZ24Encoder`. -/
def WriteZ24Encoder : GenM := gall
  [ Write32BitSwizzler GX_TF_Z24X8,
    gemit (Tok.wr ("  float cl = xb - (halfxb * 2.0f);\n")),
    gemit (Tok.wr ("  float depth0;\n")),
    gemit (Tok.wr ("  float depth1;\n")),
    gemit (Tok.wr ("  float3 expanded0;\n")),
    gemit (Tok.wr ("  float3 expanded1;\n")),
    WriteSampleColor "b" "depth0",
    WriteIncrementSampleX,
    WriteSampleColor "b" "depth1",
    (fun s => (z24LoopToks 0 ++ z24LoopToks 1, s)),
    gemit (Tok.wr ("  if(cl > 0.5f) \x7b\n")),
    gemit (Tok.wr ("     ocol0.b = expanded0.g / 255.0f;\n")),
    gemit (Tok.wr ("     ocol0.g = expanded0.b / 255.0f;\n")),
    gemit (Tok.wr ("     ocol0.r = expanded1.g / 255.0f;\n")),
    gemit (Tok.wr ("     ocol0.a = expanded1.b / 255.0f;\n")),
    gemit (Tok.wr ("  \x7d else \x7b\n")),
    gemit (Tok.wr ("     ocol0.b = 1.0f;\n")),
    gemit (Tok.wr ("     ocol0.g = expanded0.r / 255.0f;\n")),
    gemit (Tok.wr ("     ocol0.r = 1.0f;\n")),
    gemit (Tok.wr ("     ocol0.a = expanded1.r / 255.0f;\n")),
    gemit (Tok.wr ("  \x7d\n")),
    WriteEncoderEnd ]

/-- The `switch (format)` of `GenerateEncodingShader`: the generator selected
for each recognized format code, `none` for the `default:` case. -/
def dispatchEncoder (format : Nat) : Option GenM :=
  if format = GX_TF_I4 then some WriteI4Encoder
  else if format = GX_TF_I8 then some WriteI8Encoder
  else if format = GX_TF_IA4 then some WriteIA4Encoder
  else if format = GX_TF_IA8 then some WriteIA8Encoder
  else if format = GX_TF_RGB565 then some WriteRGB565Encoder
  else if format = GX_TF_RGB5A3 then some WriteRGB5A3Encoder
  else if format = GX_TF_RGBA8 then some WriteRGBA8Encoder
  else if format = GX_CTF_R4 then some (WriteC4Encoder "r")
  else if format = GX_CTF_RA4 then some (WriteCC4Encoder "ar")
  else if format = GX_CTF_RA8 then some (WriteCC8Encoder "ar")
  else if format = GX_CTF_A8 then some (WriteC8Encoder "a")
  else if format = GX_CTF_R8 then some (WriteC8Encoder "r")
  else if format = GX_CTF_G8 then some (WriteC8Encoder "g")
  else if format = GX_CTF_B8 then some (WriteC8Encoder "b")
  else if format = GX_CTF_RG8 then some (WriteCC8Encoder "rg")
  else if format = GX_CTF_GB8 then some (WriteCC8Encoder "gb")
  else if format = GX_TF_Z8 then some (WriteC8Encoder "b")
  else if format = GX_TF_Z16 then some WriteZ16Encoder
  else if format = GX_TF_Z24X8 then some WriteZ24Encoder
  else if format = GX_CTF_Z4 then some (WriteC4Encoder "b")
  else if format = GX_CTF_Z8M then some (WriteZ8Encoder "256.0f")
  else if format = GX_CTF_Z8L then some (WriteZ8Encoder "65536.0f")
  else if format = GX_CTF_Z16L then some WriteZ16LEncoder
  else none

/-- The format codes handled by the `switch` of `GenerateEncodingShader`. -/
def recognizedFormats : List Nat :=
  [GX_TF_I4, GX_TF_I8, GX_TF_IA4, GX_TF_IA8, GX_TF_RGB565, GX_TF_RGB5A3,
   GX_TF_RGBA8, GX_CTF_R4, GX_CTF_RA4, GX_CTF_RA8, GX_CTF_A8, GX_CTF_R8,
   GX_CTF_G8, GX_CTF_B8, GX_CTF_RG8, GX_CTF_GB8, GX_TF_Z8, GX_TF_Z16,
   GX_TF_Z24X8, GX_CTF_Z4, GX_CTF_Z8M, GX_CTF_Z8L, GX_CTF_Z16L]

/-- Model of `dispatchEncoder`, totalized: unknown formats emit nothing and leave
the statics alone. -/
def runEncoder (format : Nat) (s : GenState) : List Tok × GenState :=
  match dispatchEncoder format with
  | some g => g s
  | none => ([], s)

/-- The emitted shader text: concatenation of the emitted tokens (every
`WRITE` appends its formatted text at the write cursor). -/
def renderToks (ts : List Tok) : String :=
  String.join (ts.map (fun t => match t with | .wr s => s))

/-- Model of `text[sizeof(text) - 1] = 0x7C`: place the canary (0x7C is the character
code of the vertical bar) at the last byte of the buffer. -/
def setLast (buf : List Char) (c : Char) : List Char :=
  buf.take (buf.length - 1) ++ [c]

/-- Net effect on the scratch buffer of sprintf-ing a character sequence
from its start: the written characters, the terminating NUL, and the
untouched tail. -/
def writeChars (buf : List Char) (w : List Char) : List Char :=
  w ++ buf.drop w.length

def canaryMsg : String :=
  "TextureConversionShader generator - buffer too small, canary has been eaten!"

/-- Result of one `GenerateEncodingShader` call: the emitted tokens, the
final generator statics, the `PanicAlert` messages raised, and the scratch
buffer contents. -/
structure GenResult where
  toks : List Tok
  state : GenState
  panics : List String
  buffer : List Char
deriving DecidableEq

def hexStr (n : Nat) : String := String.mk (Nat.toDigits 16 n)

/-- Model of `GenerateEncodingShader`: writes the canary at the last byte of the
scratch buffer, dispatches on the format (panicking on an unknown one
without emitting anything), then panics if the canary was overwritten.
The locale switching around generation has no observable effect here. -/
def GenerateEncodingShader (format : Nat) (s : GenState) (buf : List Char) : GenResult :=
  let buf1 := setLast buf '|'
  match dispatchEncoder format with
  | some g =>
    let r := g s
    let buf2 := writeChars buf1 ((renderToks r.1).data ++ [Char.ofNat 0])
    { toks := r.1, state := r.2,
      panics := if buf2.getLastD '|' = '|' then [] else [canaryMsg],
      buffer := buf2 }
  | none =>
    { toks := [], state := s,
      panics := ["Unknown texture copy format: 0x" ++ hexStr format ++ "\n"] ++
        (if buf1.getLastD '|' = '|' then [] else [canaryMsg]),
      buffer := buf1 }

/-- A 257-byte record whose meaningful range has Adler-32 checksum exactly 0
(all bytes 255 except positions 110 and 252): it exercises the `HASH == 0`
memoization sentinel. -/
def zeroAdlerBytes : List Nat :=
  (List.range 257).map (fun i => if i = 110 then 241 else if i = 252 then 254 else 255)

/-- One operation against a `UidChecker`. -/
inductive CheckerOp where
  | addOp (code : String) (uid : UidB)
  | invalidateOp
deriving DecidableEq

/-- Run a sequence of checker operations (most recent first) from the
default-constructed checker. -/
def runOps (start count : Nat) : List CheckerOp → CheckerState
  | [] => emptyChecker
  | op :: rest =>
    let st := runOps start count rest
    match op with
    | .addOp c u => (AddToIndexAndCheck start count st c u).1
    | .invalidateOp => Invalidate st

/-- Number of entries of the uid vector whose meaningful range is `m`. -/
def uidCount (start count : Nat) (l : List UidB) (m : List Nat) : Nat :=
  l.countP (fun u => decide (meaningful start count u = m))

/-- Number of entries of the shader map whose key's meaningful range is `m`. -/
def mapKeyCount (start count : Nat) (sh : List (UidB × String)) (m : List Nat) : Nat :=
  sh.countP (fun e => decide (meaningful start count e.1 = m))

/-- The `UidChecker` representation invariant: every fingerprint class occurs
at most once in `m_uids`, and exactly as often among the keys of
`m_shaders`. -/
def CheckerInv (start count : Nat) (st : CheckerState) : Prop :=
  ∀ m : List Nat,
    uidCount start count st.m_uids m ≤ 1 ∧
    uidCount start count st.m_uids m = mapKeyCount start count st.m_shaders m

/-! Helper lemmas. -/

theorem uidEq_refl (start count : Nat) (u : UidB) : uidEq start count u u = true := by
  simp [uidEq]

theorem mapAssign_of_fresh (start count : Nat) (sh : List (UidB × String)) (U : UidB)
    (v : String) (h : ∀ e ∈ sh, uidEq start count e.1 U = false) :
    mapAssign start count sh U v = sh ++ [(U, v)] := by
  induction sh with
  | nil => rfl
  | cons e rest ih =>
    have he := h e (by simp)
    simp [mapAssign, he, ih (fun e2 m => h e2 (by simp [m]))]

theorem mapFindOrInsert_append_fresh (start count : Nat) (sh : List (UidB × String))
    (U : UidB) (v : String) (h : ∀ e ∈ sh, uidEq start count e.1 U = false) :
    mapFindOrInsert start count (sh ++ [(U, v)]) U = (v, sh ++ [(U, v)]) := by
  induction sh with
  | nil => simp [mapFindOrInsert, uidEq_refl]
  | cons e rest ih =>
    have he := h e (by simp)
    simp [mapFindOrInsert, he, ih (fun e2 m => h e2 (by simp [m]))]

theorem mapFind_append_fresh (start count : Nat) (sh : List (UidB × String))
    (U : UidB) (v : String) (h : ∀ e ∈ sh, uidEq start count e.1 U = false) :
    mapFind start count (sh ++ [(U, v)]) U = some v := by
  induction sh with
  | nil => simp [mapFind, uidEq_refl]
  | cons e rest ih =>
    have he := h e (by simp)
    simp [mapFind, he, ih (fun e2 m => h e2 (by simp [m]))]

theorem mapFindOrInsert_snd_of_found (start count : Nat) (sh : List (UidB × String))
    (U : UidB) (h : ∃ e ∈ sh, uidEq start count e.1 U = true) :
    (mapFindOrInsert start count sh U).2 = sh := by
  induction sh with
  | nil => simp at h
  | cons e rest ih =>
    by_cases he : uidEq start count e.1 U = true
    · simp [mapFindOrInsert, he]
    · have : ∃ e2 ∈ rest, uidEq start count e2.1 U = true := by
        rcases h with ⟨e2, m, hq⟩
        rcases List.mem_cons.mp m with rfl | m2
        · exact absurd hq he
        · exact ⟨e2, m2, hq⟩
      simp [mapFindOrInsert, he, ih this]

theorem groupsOf4_length (l : List Nat) : (groupsOf4 l).length = (l.length + 3) / 4 := by
  match l with
  | [] => rfl
  | [_] => simp [groupsOf4]
  | [_, _] => simp [groupsOf4]
  | [_, _, _] => simp [groupsOf4]
  | a :: b :: c :: d :: rest =>
    simp only [groupsOf4, List.length_cons, groupsOf4_length rest]
    omega

theorem groupsOf4_mem_length :
    ∀ (l : List Nat), 4 ∣ l.length → ∀ g ∈ groupsOf4 l, g.length = 4 := by
  intro l
  match l with
  | [] => intro _ g hg; simp [groupsOf4] at hg
  | [_] => intro h; simp only [List.length_cons, List.length_nil] at h; omega
  | [_, _] => intro h; simp only [List.length_cons, List.length_nil] at h; omega
  | [_, _, _] => intro h; simp only [List.length_cons, List.length_nil] at h; omega
  | a :: b :: c :: d :: rest =>
    intro h g hg
    simp only [groupsOf4, List.mem_cons] at hg
    rcases hg with rfl | hg
    · rfl
    · refine groupsOf4_mem_length rest ?_ g hg
      simp only [List.length_cons] at h
      omega

theorem groupsOf4_mem_mem :
    ∀ (l : List Nat), ∀ g ∈ groupsOf4 l, ∀ w ∈ g, w ∈ l := by
  intro l
  match l with
  | [] => intro g hg; simp [groupsOf4] at hg
  | [a] => intro g hg; simp [groupsOf4] at hg; simp [hg]
  | [a, b] => intro g hg; simp [groupsOf4] at hg; simp [hg]
  | [a, b, c] => intro g hg; simp [groupsOf4] at hg; simp [hg]
  | a :: b :: c :: d :: rest =>
    intro g hg w hw
    simp only [groupsOf4, List.mem_cons] at hg
    rcases hg with rfl | hg
    · simp only [List.mem_cons]
      simp only [List.mem_cons, List.mem_singleton] at hw
      tauto
    · have := groupsOf4_mem_mem rest g hg w hw
      simp [this, List.mem_cons]

theorem getD_lt_256 (u : List Nat) (hb : ∀ b ∈ u, b < 256) (i : Nat) :
    u.getD i 0 < 256 := by
  rcases h : u.get? i with _ | b
  · simp [List.getD_eq_getElem?_getD, ← List.get?_eq_getElem?, h]
  · have hm : b ∈ u := List.get?_mem h
    simp [List.getD_eq_getElem?_getD, ← List.get?_eq_getElem?, h]
    exact hb b hm

theorem wordAt_lt (u : List Nat) (hb : ∀ b ∈ u, b < 256) (i : Nat) :
    wordAt u i < 4294967296 := by
  have h0 := getD_lt_256 u hb (4 * i)
  have h1 := getD_lt_256 u hb (4 * i + 1)
  have h2 := getD_lt_256 u hb (4 * i + 2)
  have h3 := getD_lt_256 u hb (4 * i + 3)
  unfold wordAt
  omega

theorem dumpWords_lt (u : List Nat) (hb : ∀ b ∈ u, b < 256) :
    ∀ w ∈ dumpWords u, w < 4294967296 := by
  intro w hw
  simp only [dumpWords, List.mem_map] at hw
  rcases hw with ⟨i, _, rfl⟩
  exact wordAt_lt u hb i

theorem hex8_length (w : Nat) : (hex8 w).length = 8 := by
  simp [hex8, String.length]

/-! Theorems for the claims. -/

/-- C3 counterexample: a uid with record byte 1 and a computed (nonzero)
hash.  `ClearUID` zeroes the byte, but the cached hash survives, and a
subsequent `CalculateUIDHash` returns the stale cached value rather than the
checksum of the cleared bytes. -/
theorem c3_counterexample :
    (CalculateUIDHash 0 1 (ClearUID (CalculateUIDHash 0 1 ⟨[1], 0⟩))).HASH
        = (CalculateUIDHash 0 1 ⟨[1], 0⟩).HASH ∧
    (∀ b ∈ (ClearUID (CalculateUIDHash 0 1 ⟨[1], 0⟩)).values, b = 0) ∧
    (CalculateUIDHash 0 1 ⟨[1], 0⟩).HASH ≠ 0 ∧
    (CalculateUIDHash 0 1 (ClearUID (CalculateUIDHash 0 1 ⟨[1], 0⟩))).HASH ≠
      hashAdler32 (meaningful 0 1
        (CalculateUIDHash 0 1 (ClearUID (CalculateUIDHash 0 1 ⟨[1], 0⟩))).values) := by
  decide

/-- C3 (amended): after `ClearUID` every byte of the configuration record is
zero, but the cached hash is NOT invalidated: the `HASH` member is kept, and
when it is nonzero a subsequent `CalculateUIDHash` is a no-op, returning the
stale cached value instead of recomputing over the cleared bytes. -/
theorem c3_clear_keeps_hash (start count : Nat) (u : ShaderUidM) (h : u.HASH ≠ 0) :
    (∀ b ∈ (ClearUID u).values, b = 0) ∧
    (ClearUID u).HASH = u.HASH ∧
    CalculateUIDHash start count (ClearUID u) = ClearUID u := by
  refine ⟨by simp [ClearUID], rfl, ?_⟩
  simp only [CalculateUIDHash, ClearUID]
  simp [h]

/-- Witness for C3's amended theorem at a concrete input. -/
theorem c3_clear_keeps_hash_witness :
    (ShaderUidM.mk [1] 5).HASH ≠ 0 ∧
    ((∀ b ∈ (ClearUID ⟨[1], 5⟩).values, b = 0) ∧
      (ClearUID (ShaderUidM.mk [1] 5)).HASH = (ShaderUidM.mk [1] 5).HASH ∧
      CalculateUIDHash 0 1 (ClearUID ⟨[1], 5⟩) = ClearUID ⟨[1], 5⟩) :=
  ⟨by decide, c3_clear_keeps_hash 0 1 ⟨[1], 5⟩ (by decide)⟩

/-- C4 counterexample: a record whose meaningful range checksums to exactly
0.  The first `CalculateUIDHash` stores 0, which is indistinguishable from
"not yet computed", so the second call does recompute (instrumented flag
`true`), refuting "after the first computation the cached value is returned
without recomputation" (the value returned is nevertheless the same). -/
theorem c4_counterexample :
    (CalculateUIDHashT 0 257 (CalculateUIDHash 0 257 ⟨zeroAdlerBytes, 0⟩)).2 = true ∧
    (CalculateUIDHashT 0 257 (CalculateUIDHash 0 257 ⟨zeroAdlerBytes, 0⟩)).1.HASH
      = (CalculateUIDHash 0 257 ⟨zeroAdlerBytes, 0⟩).HASH := by
  decide

/-- C4 (amended): computing the hash twice without an intervening clear
yields the same value both times, even if bytes outside the meaningful range
`[start, start+count)` are mutated in between; and when the first computed
hash is nonzero, the second call returns the cached value without
recomputation.  (When the checksum is exactly 0 — the memoization sentinel —
the second call recomputes, deterministically producing the same value.) -/
theorem c4_hash_memoization (start count : Nat) (u : ShaderUidM) (w : List Nat)
    (hmut : meaningful start count w = meaningful start count u.values) :
    ((CalculateUIDHash start count
        ⟨w, (CalculateUIDHash start count u).HASH⟩).HASH
      = (CalculateUIDHash start count u).HASH) ∧
    ((CalculateUIDHash start count u).HASH ≠ 0 →
      CalculateUIDHashT start count ⟨w, (CalculateUIDHash start count u).HASH⟩
        = (⟨w, (CalculateUIDHash start count u).HASH⟩, false)) := by
  by_cases h : u.HASH = 0
  · by_cases h2 : hashAdler32 (meaningful start count u.values) = 0
    · simp [CalculateUIDHash, CalculateUIDHashT, h, h2, hmut]
    · simp [CalculateUIDHash, CalculateUIDHashT, h, h2, hmut]
  · simp [CalculateUIDHash, CalculateUIDHashT, h]

/-- Witness for C4's amended theorem at a concrete input. -/
theorem c4_hash_memoization_witness :
    (meaningful 0 1 [1] = meaningful 0 1 (ShaderUidM.mk [1] 0).values) ∧
    (((CalculateUIDHash 0 1 ⟨[1], (CalculateUIDHash 0 1 ⟨[1], 0⟩).HASH⟩).HASH
        = (CalculateUIDHash 0 1 (ShaderUidM.mk [1] 0)).HASH) ∧
      ((CalculateUIDHash 0 1 (ShaderUidM.mk [1] 0)).HASH ≠ 0 →
        CalculateUIDHashT 0 1 ⟨[1], (CalculateUIDHash 0 1 ⟨[1], 0⟩).HASH⟩
          = (⟨[1], (CalculateUIDHash 0 1 ⟨[1], 0⟩).HASH⟩, false))) :=
  ⟨rfl, c4_hash_memoization 0 1 ⟨[1], 0⟩ [1] rfl⟩

theorem mapFindOrInsert_of_found (start count : Nat) (sh : List (UidB × String))
    (U : UidB) (v : String) (h : mapFind start count sh U = some v) :
    mapFindOrInsert start count sh U = (v, sh) := by
  induction sh with
  | nil => simp [mapFind] at h
  | cons e rest ih =>
    by_cases he : uidEq start count e.1 U = true
    · simp [mapFind, he] at h
      simp [mapFindOrInsert, he, h]
    · simp only [mapFind, he] at h
      simp only [Bool.false_eq_true, if_false] at h
      simp [mapFindOrInsert, he, ih h]

/-- C2: calling `AddToIndexAndCheck` twice with the same fingerprint and the
identical text, from a state where the fingerprint is not yet indexed, writes
no diagnostic dump either time and leaves the checker with exactly one entry
for the fingerprint: it occurs once in `m_uids` and once among the keys of
`m_shaders`, mapped to the text. -/
theorem c2_cache_idempotence (start count : Nat) (st : CheckerState) (U : UidB) (T : String)
    (hu : ∀ u ∈ st.m_uids, uidEq start count u U = false)
    (hm : ∀ e ∈ st.m_shaders, uidEq start count e.1 U = false) :
    (AddToIndexAndCheck start count st T U).2 = none ∧
    (AddToIndexAndCheck start count (AddToIndexAndCheck start count st T U).1 T U).2 = none ∧
    ((AddToIndexAndCheck start count (AddToIndexAndCheck start count st T U).1 T U).1.m_uids.countP
      (fun u => uidEq start count u U)) = 1 ∧
    ((AddToIndexAndCheck start count (AddToIndexAndCheck start count st T U).1 T U).1.m_shaders.countP
      (fun e => uidEq start count e.1 U)) = 1 ∧
    mapFind start count
      (AddToIndexAndCheck start count (AddToIndexAndCheck start count st T U).1 T U).1.m_shaders U
      = some T := by
  have hany : (st.m_uids.any fun u => uidEq start count u U) = false := by
    rw [List.any_eq_false]
    intro u m
    simp [hu u m]
  have h1 : AddToIndexAndCheck start count st T U =
      ({ m_shaders := st.m_shaders ++ [(U, T)], m_uids := st.m_uids ++ [U] }, none) := by
    simp [AddToIndexAndCheck, hany, mapAssign_of_fresh start count st.m_shaders U T hm]
  have hany2 : ((st.m_uids ++ [U]).any fun u => uidEq start count u U) = true := by
    simp [List.any_append, uidEq_refl]
  have hfoi := mapFindOrInsert_append_fresh start count st.m_shaders U T hm
  have h2 : AddToIndexAndCheck start count
      { m_shaders := st.m_shaders ++ [(U, T)], m_uids := st.m_uids ++ [U] } T U =
      ({ m_shaders := st.m_shaders ++ [(U, T)], m_uids := st.m_uids ++ [U] }, none) := by
    simp [AddToIndexAndCheck, hany2, hfoi]
  refine ⟨?_, ?_, ?_, ?_, ?_⟩
  · rw [h1]
  · simp only [h1, h2]
  · simp only [h1, h2, List.countP_append]
    rw [List.countP_eq_zero.mpr (fun u m => by simp [hu u m])]
    simp [List.countP_cons, uidEq_refl]
  · simp only [h1, h2, List.countP_append]
    rw [List.countP_eq_zero.mpr (fun e m => by simp [hm e m])]
    simp [List.countP_cons, uidEq_refl]
  · simp only [h1, h2]
    exact mapFind_append_fresh start count st.m_shaders U T hm

/-- C1: calling `AddToIndexAndCheck` with `(T1, U)` and then `(T2, U)` with
`T1 ≠ T2`, from a state where `U` is not yet indexed, writes exactly one
diagnostic dump — on the second call — whose "New shader code" section is
`T2` verbatim; its hex dump has `ceil(GetUidDataSize()/4)` groups, each group
holding 4 words, each word a 32-bit value rendered as exactly 8 zero-padded
hex digits. -/
theorem c1_collision_detection (start count : Nat) (st : CheckerState) (U : UidB)
    (T1 T2 : String)
    (hu : ∀ u ∈ st.m_uids, uidEq start count u U = false)
    (hm : ∀ e ∈ st.m_shaders, uidEq start count e.1 U = false)
    (hne : T1 ≠ T2) (hb : ∀ b ∈ U, b < 256) (h4 : 4 ∣ U.length) :
    (AddToIndexAndCheck start count st T1 U).2 = none ∧
    (AddToIndexAndCheck start count (AddToIndexAndCheck start count st T1 U).1 T2 U).2
      = some { oldCode := T1, newCode := T2, groups := groupsOf4 (dumpWords U) } ∧
    (groupsOf4 (dumpWords U)).length = (U.length + 3) / 4 ∧
    (∀ g ∈ groupsOf4 (dumpWords U), g.length = 4) ∧
    (∀ g ∈ groupsOf4 (dumpWords U), ∀ w ∈ g, w < 4294967296 ∧ (hex8 w).length = 8) := by
  have hany : (st.m_uids.any fun u => uidEq start count u U) = false := by
    rw [List.any_eq_false]
    intro u m
    simp [hu u m]
  have h1 : AddToIndexAndCheck start count st T1 U =
      ({ m_shaders := st.m_shaders ++ [(U, T1)], m_uids := st.m_uids ++ [U] }, none) := by
    simp [AddToIndexAndCheck, hany, mapAssign_of_fresh start count st.m_shaders U T1 hm]
  have hany2 : ((st.m_uids ++ [U]).any fun u => uidEq start count u U) = true := by
    simp [List.any_append, uidEq_refl]
  have hfoi := mapFindOrInsert_append_fresh start count st.m_shaders U T1 hm
  have hlen : (dumpWords U).length = U.length := by simp [dumpWords]
  refine ⟨by rw [h1], ?_, ?_, ?_, ?_⟩
  · rw [h1]
    simp only
    simp [AddToIndexAndCheck, hany2, hfoi, hne]
  · rw [groupsOf4_length, hlen]
  · exact groupsOf4_mem_length (dumpWords U) (by rw [hlen]; exact h4)
  · intro g hg w hw
    exact ⟨dumpWords_lt U hb w (groupsOf4_mem_mem (dumpWords U) g hg w hw), hex8_length w⟩

/-- C5 counterexample: record text "a" for a uid, then record text "b" for
the same uid.  The claim says the map now associates the uid with "b" (the
most recently produced text); in fact the stored text is not replaced on a
mismatch — the map still holds "a". -/
theorem c5_counterexample :
    mapFind 0 4
      (AddToIndexAndCheck 0 4
        (AddToIndexAndCheck 0 4 emptyChecker "a" [0, 0, 0, 0]).1 "b" [0, 0, 0, 0]).1.m_shaders
      [0, 0, 0, 0] = some "a" ∧ ("a" : String) ≠ "b" := by
  decide

/-- C5 (amended): after a call to `AddToIndexAndCheck` with fingerprint `U`
and text `T`, the checker's map associates `U` with the FIRST text recorded
for it: if some text `T0` is already stored for an indexed `U`, the stored
text stays `T0` (in particular, on a mismatch the stored text is NOT
replaced by the new text; only the caller continues with the new text). -/
theorem c5_stored_text_not_replaced (start count : Nat) (st : CheckerState) (U : UidB)
    (T T0 : String)
    (hidx : (st.m_uids.any fun u => uidEq start count u U) = true)
    (hfound : mapFind start count st.m_shaders U = some T0) :
    mapFind start count (AddToIndexAndCheck start count st T U).1.m_shaders U = some T0 := by
  have hfoi := mapFindOrInsert_of_found start count st.m_shaders U T0 hfound
  by_cases hcmp : T0 = T
  · simp [AddToIndexAndCheck, hidx, hfoi, hcmp] at hfound ⊢
    exact hfound
  · simp [AddToIndexAndCheck, hidx, hfoi, hcmp]
    exact hfound

/-- Witness for C5's amended theorem at a concrete input. -/
theorem c5_stored_text_not_replaced_witness :
    ((((AddToIndexAndCheck 0 4 emptyChecker "a" [0, 0, 0, 0]).1.m_uids.any
        fun u => uidEq 0 4 u [0, 0, 0, 0]) = true) ∧
      mapFind 0 4 (AddToIndexAndCheck 0 4 emptyChecker "a" [0, 0, 0, 0]).1.m_shaders
        [0, 0, 0, 0] = some "a") ∧
    mapFind 0 4
      (AddToIndexAndCheck 0 4
        (AddToIndexAndCheck 0 4 emptyChecker "a" [0, 0, 0, 0]).1 "b" [0, 0, 0, 0]).1.m_shaders
      [0, 0, 0, 0] = some "a" :=
  ⟨⟨by decide, by decide⟩,
    c5_stored_text_not_replaced 0 4 (AddToIndexAndCheck 0 4 emptyChecker "a" [0, 0, 0, 0]).1
      [0, 0, 0, 0] "b" "a" (by decide) (by decide)⟩

theorem checkerInv_empty (start count : Nat) : CheckerInv start count emptyChecker := by
  intro m
  simp [uidCount, mapKeyCount, emptyChecker]

theorem checkerInv_add (start count : Nat) (st : CheckerState) (c : String) (U : UidB)
    (h : CheckerInv start count st) :
    CheckerInv start count (AddToIndexAndCheck start count st c U).1 := by
  by_cases hidx : (st.m_uids.any fun u => uidEq start count u U) = true
  · have hex : ∃ e ∈ st.m_shaders, uidEq start count e.1 U = true := by
      rcases List.any_eq_true.mp hidx with ⟨u, hm, hq⟩
      have h1 : 0 < uidCount start count st.m_uids (meaningful start count U) := by
        rw [uidCount, List.countP_pos_iff]
        exact ⟨u, hm, by simpa [uidEq] using hq⟩
      rw [(h (meaningful start count U)).2] at h1
      rcases List.countP_pos_iff.mp h1 with ⟨e, he, hp⟩
      exact ⟨e, he, by simpa [uidEq] using hp⟩
    have hfoi := mapFindOrInsert_snd_of_found start count st.m_shaders U hex
    have hres : (AddToIndexAndCheck start count st c U).1 = st := by
      by_cases hcmp : (mapFindOrInsert start count st.m_shaders U).1 = c <;>
        simp [AddToIndexAndCheck, hidx, hcmp, hfoi]
    rw [hres]
    exact h
  · have hfresh : ∀ u ∈ st.m_uids, uidEq start count u U = false := by
      intro u hm
      by_contra hne
      exact hidx (List.any_eq_true.mpr ⟨u, hm, by simpa using hne⟩)
    have hmfresh : ∀ e ∈ st.m_shaders, uidEq start count e.1 U = false := by
      intro e he
      by_contra hne
      have h1 : 0 < mapKeyCount start count st.m_shaders (meaningful start count U) := by
        rw [mapKeyCount, List.countP_pos_iff]
        refine ⟨e, he, ?_⟩
        have : uidEq start count e.1 U = true := by simpa using hne
        simpa [uidEq] using this
      rw [← (h (meaningful start count U)).2] at h1
      rcases List.countP_pos_iff.mp h1 with ⟨u, hm, hp⟩
      have hq : uidEq start count u U = true := by simpa [uidEq] using hp
      rw [hfresh u hm] at hq
      exact Bool.false_ne_true hq
    have hres : (AddToIndexAndCheck start count st c U).1 =
        ⟨st.m_shaders ++ [(U, c)], st.m_uids ++ [U]⟩ := by
      have hany : (st.m_uids.any fun u => uidEq start count u U) = false := by
        rw [List.any_eq_false]
        intro u m
        simp [hfresh u m]
      simp [AddToIndexAndCheck, hany, mapAssign_of_fresh start count st.m_shaders U c hmfresh]
    rw [hres]
    intro m
    by_cases hq : meaningful start count U = m
    · have hz : st.m_uids.countP (fun u => decide (meaningful start count u = m)) = 0 := by
        rw [List.countP_eq_zero]
        intro u hm
        have := hfresh u hm
        simp only [uidEq, hq] at this
        simp [this]
      have hz2 : st.m_shaders.countP
          (fun e => decide (meaningful start count e.1 = m)) = 0 := by
        rw [List.countP_eq_zero]
        intro e he
        have := hmfresh e he
        simp only [uidEq, hq] at this
        simp [this]
      constructor
      · simp only [uidCount, List.countP_append, hz]
        simp [List.countP_cons, hq]
      · simp only [uidCount, mapKeyCount, List.countP_append, hz, hz2]
        simp [List.countP_cons, hq]
    · have hstep : uidCount start count (st.m_uids ++ [U]) m =
          uidCount start count st.m_uids m := by
        simp [uidCount, List.countP_append, List.countP_cons, hq]
      have hstep2 : mapKeyCount start count (st.m_shaders ++ [(U, c)]) m =
          mapKeyCount start count st.m_shaders m := by
        simp [mapKeyCount, List.countP_append, List.countP_cons, hq]
      constructor
      · rw [hstep]
        exact (h m).1
      · rw [hstep, hstep2]
        exact (h m).2

/-- C10: across every sequence of `AddToIndexAndCheck` and `Invalidate`
operations from the default-constructed checker, each fingerprint class
occurs at most once in `m_uids` and exactly as often among the keys of
`m_shaders` (so the fingerprint set of the vector equals the key set of the
map); and `Invalidate` always restores the empty checker. -/
theorem c10_checker_invariant (start count : Nat) :
    (∀ ops : List CheckerOp, CheckerInv start count (runOps start count ops)) ∧
    (∀ st : CheckerState, Invalidate st = emptyChecker) := by
  refine ⟨?_, fun st => rfl⟩
  intro ops
  induction ops with
  | nil => exact checkerInv_empty start count
  | cons op rest ih =>
    cases op with
    | addOp c u => exact checkerInv_add start count (runOps start count rest) c u ih
    | invalidateOp => exact checkerInv_empty start count

/-- Witness for C1 at a concrete input. -/
theorem c1_collision_detection_witness :
    ((∀ u ∈ emptyChecker.m_uids, uidEq 0 4 u [1, 2, 3, 4] = false) ∧
      (∀ e ∈ emptyChecker.m_shaders, uidEq 0 4 e.1 [1, 2, 3, 4] = false) ∧
      ("a" : String) ≠ "b" ∧ (∀ b ∈ [1, 2, 3, 4], b < 256) ∧
      4 ∣ ([1, 2, 3, 4] : List Nat).length) ∧
    ((AddToIndexAndCheck 0 4 emptyChecker "a" [1, 2, 3, 4]).2 = none ∧
      (AddToIndexAndCheck 0 4 (AddToIndexAndCheck 0 4 emptyChecker "a" [1, 2, 3, 4]).1
          "b" [1, 2, 3, 4]).2
        = some { oldCode := "a", newCode := "b",
                 groups := groupsOf4 (dumpWords [1, 2, 3, 4]) } ∧
      (groupsOf4 (dumpWords [1, 2, 3, 4])).length = (([1, 2, 3, 4] : List Nat).length + 3) / 4 ∧
      (∀ g ∈ groupsOf4 (dumpWords [1, 2, 3, 4]), g.length = 4) ∧
      (∀ g ∈ groupsOf4 (dumpWords [1, 2, 3, 4]), ∀ w ∈ g,
        w < 4294967296 ∧ (hex8 w).length = 8)) :=
  ⟨⟨by decide, by decide, by decide, by decide, by decide⟩,
    c1_collision_detection 0 4 emptyChecker [1, 2, 3, 4] "a" "b"
      (by decide) (by decide) (by decide) (by decide) (by decide)⟩

/-- Witness for C2 at a concrete input. -/
theorem c2_cache_idempotence_witness :
    ((∀ u ∈ emptyChecker.m_uids, uidEq 0 4 u [1, 2, 3, 4] = false) ∧
      (∀ e ∈ emptyChecker.m_shaders, uidEq 0 4 e.1 [1, 2, 3, 4] = false)) ∧
    ((AddToIndexAndCheck 0 4 emptyChecker "x" [1, 2, 3, 4]).2 = none ∧
      (AddToIndexAndCheck 0 4 (AddToIndexAndCheck 0 4 emptyChecker "x" [1, 2, 3, 4]).1
          "x" [1, 2, 3, 4]).2 = none ∧
      ((AddToIndexAndCheck 0 4 (AddToIndexAndCheck 0 4 emptyChecker "x" [1, 2, 3, 4]).1
          "x" [1, 2, 3, 4]).1.m_uids.countP (fun u => uidEq 0 4 u [1, 2, 3, 4])) = 1 ∧
      ((AddToIndexAndCheck 0 4 (AddToIndexAndCheck 0 4 emptyChecker "x" [1, 2, 3, 4]).1
          "x" [1, 2, 3, 4]).1.m_shaders.countP (fun e => uidEq 0 4 e.1 [1, 2, 3, 4])) = 1 ∧
      mapFind 0 4
        (AddToIndexAndCheck 0 4 (AddToIndexAndCheck 0 4 emptyChecker "x" [1, 2, 3, 4]).1
          "x" [1, 2, 3, 4]).1.m_shaders [1, 2, 3, 4] = some "x") :=
  ⟨⟨by decide, by decide⟩,
    c2_cache_idempotence 0 4 emptyChecker [1, 2, 3, 4] "x" (by decide) (by decide)⟩

/-- C8: for the bit depths used by the generators, the step emitted by
`WriteToBitDepth` is `dest = floor(src * c)` with `c = 255 / 2^(8-N)`, whose
semantics is `quantize`; in particular `quantize 5 1 = 31` and
`quantize 8 (1/2) = 127`. -/
theorem c8_quantization (N : Nat) (hN : N = 3 ∨ N = 4 ∨ N = 5 ∨ N = 6 ∨ N = 8)
    (src dest : String) (s : GenState) :
    (WriteToBitDepth N src dest s).1 =
      [Tok.wr ("  " ++ dest ++ " = floor(" ++ src ++ " * " ++
        formatFixed6 ((255 : ℚ) / 2 ^ (8 - N)) ++ "f);\n")] ∧
    (∀ v : ℚ, quantize N v = Int.floor (v * ((255 : ℚ) / 2 ^ (8 - N)))) ∧
    quantize 5 1 = 31 ∧ quantize 8 (1 / 2) = 127 := by
  obtain rfl | rfl | rfl | rfl | rfl := hN <;>
    exact ⟨rfl, fun v => rfl,
      by rw [quantize, bitDepthConst]; norm_num,
      by rw [quantize, bitDepthConst]; norm_num⟩

/-- Witness for C8 at a concrete input. -/
theorem c8_quantization_witness :
    ((5 : Nat) = 3 ∨ (5 : Nat) = 4 ∨ (5 : Nat) = 5 ∨ (5 : Nat) = 6 ∨ (5 : Nat) = 8) ∧
    ((WriteToBitDepth 5 "texRs" "ocol0.br" initGenState).1 =
        [Tok.wr ("  " ++ "ocol0.br" ++ " = floor(" ++ "texRs" ++ " * " ++
          formatFixed6 ((255 : ℚ) / 2 ^ (8 - 5)) ++ "f);\n")] ∧
      (∀ v : ℚ, quantize 5 v = Int.floor (v * ((255 : ℚ) / 2 ^ (8 - 5)))) ∧
      quantize 5 1 = 31 ∧ quantize 8 (1 / 2) = 127) :=
  ⟨by decide, c8_quantization 5 (by decide) "texRs" "ocol0.br" initGenState⟩

/-- C9: for every recognized format, the generator's epilogue
(`WriteEncoderEnd`) resets the process-wide sample-index counter to 0 and
the intensity-constant flag to false — the post-state is the initial state
whatever the starting state was — and two consecutive generations of the
same format emit identical token streams, hence byte-identical shader
text. -/
theorem c9_consecutive_identical (format : Nat) (hf : format ∈ recognizedFormats)
    (s : GenState) :
    (runEncoder format s).2 = initGenState ∧
    (runEncoder format initGenState).1 =
      (runEncoder format ((runEncoder format initGenState).2)).1 ∧
    renderToks (runEncoder format initGenState).1 =
      renderToks (runEncoder format ((runEncoder format initGenState).2)).1 := by
  have hpost : ∀ t : GenState, (runEncoder format t).2 = initGenState := by
    intro t
    obtain ⟨ia, c⟩ := t
    simp only [recognizedFormats, List.mem_cons, List.not_mem_nil, or_false] at hf
    rcases hf with rfl | rfl | rfl | rfl | rfl | rfl | rfl | rfl | rfl | rfl | rfl | rfl |
      rfl | rfl | rfl | rfl | rfl | rfl | rfl | rfl | rfl | rfl | rfl <;>
      cases ia <;> rfl
  refine ⟨hpost s, ?_, ?_⟩ <;> rw [hpost initGenState]

/-- Witness for C9 at a concrete input. -/
theorem c9_consecutive_identical_witness :
    GX_TF_I4 ∈ recognizedFormats ∧
    ((runEncoder GX_TF_I4 initGenState).2 = initGenState ∧
      (runEncoder GX_TF_I4 initGenState).1 =
        (runEncoder GX_TF_I4 ((runEncoder GX_TF_I4 initGenState).2)).1 ∧
      renderToks (runEncoder GX_TF_I4 initGenState).1 =
        renderToks (runEncoder GX_TF_I4 ((runEncoder GX_TF_I4 initGenState).2)).1) :=
  ⟨by decide, c9_consecutive_identical GX_TF_I4 (by decide) initGenState⟩

/-- C7: every format code outside the recognized set hits the `default:`
case: a `PanicAlert` naming the format is raised and no shader text is
emitted — there is no fallback generator. -/
theorem c7_unknown_format (format : Nat) (s : GenState) (buf : List Char)
    (h : format ∉ recognizedFormats) :
    ("Unknown texture copy format: 0x" ++ hexStr format ++ "\n")
      ∈ (GenerateEncodingShader format s buf).panics ∧
    (GenerateEncodingShader format s buf).toks = [] := by
  have hd : dispatchEncoder format = none := by
    simp only [recognizedFormats, List.mem_cons, List.not_mem_nil, or_false, not_or] at h
    obtain ⟨h1, h2, h3, h4, h5, h6, h7, h8, h9, h10, h11, h12, h13, h14, h15, h16,
      h17, h18, h19, h20, h21, h22, h23⟩ := h
    simp [dispatchEncoder, h1, h2, h3, h4, h5, h6, h7, h8, h9, h10, h11, h12, h13,
      h14, h15, h16, h17, h18, h19, h20, h21, h22, h23]
  constructor
  · simp [GenerateEncodingShader, hd]
  · simp [GenerateEncodingShader, hd]

/-- Witness for C7 at a concrete input (format code 7 is unassigned). -/
theorem c7_unknown_format_witness :
    (7 ∉ recognizedFormats) ∧
    (("Unknown texture copy format: 0x" ++ hexStr 7 ++ "\n")
        ∈ (GenerateEncodingShader 7 initGenState []).panics ∧
      (GenerateEncodingShader 7 initGenState []).toks = []) :=
  ⟨by decide, c7_unknown_format 7 initGenState [] (by decide)⟩

/-- C6: for a recognized format, `GenerateEncodingShader` places the canary
`0x7C` at the last byte of the scratch buffer before dispatching, and raises
the fatal buffer-overflow alert after generation if and only if that byte no
longer equals the canary; whenever the emitted text (plus its NUL
terminator) fits strictly inside the 16384-byte buffer below the canary
byte, the fatal path is unreachable. -/
theorem c6_canary_detection (format : Nat) (s : GenState) (buf : List Char)
    (hlen : buf.length = 16384) (hf : format ∈ recognizedFormats) :
    ((canaryMsg ∈ (GenerateEncodingShader format s buf).panics) ↔
      (GenerateEncodingShader format s buf).buffer.getLastD '|' ≠ '|') ∧
    ((renderToks (GenerateEncodingShader format s buf).toks).length + 1 < 16384 →
      canaryMsg ∉ (GenerateEncodingShader format s buf).panics) := by
  obtain ⟨g, hd⟩ : ∃ g, dispatchEncoder format = some g := by
    simp only [recognizedFormats, List.mem_cons, List.not_mem_nil, or_false] at hf
    rcases hf with rfl | rfl | rfl | rfl | rfl | rfl | rfl | rfl | rfl | rfl | rfl | rfl |
      rfl | rfl | rfl | rfl | rfl | rfl | rfl | rfl | rfl | rfl | rfl <;> exact ⟨_, rfl⟩
  have hres : GenerateEncodingShader format s buf =
      { toks := (g s).1, state := (g s).2,
        panics := if (writeChars (setLast buf '|')
            ((renderToks (g s).1).data ++ [Char.ofNat 0])).getLastD '|' = '|'
          then [] else [canaryMsg],
        buffer := writeChars (setLast buf '|')
          ((renderToks (g s).1).data ++ [Char.ofNat 0]) } := by
    simp [GenerateEncodingShader, hd]
  rw [hres]
  constructor
  · by_cases hc : (writeChars (setLast buf '|')
        ((renderToks (g s).1).data ++ [Char.ofNat 0])).getLastD '|' = '|' <;>
      simp [hc]
  · intro hfit
    have hfit2 : (renderToks (g s).1).length + 1 < 16384 := hfit
    have h1 : (renderToks (g s).1).length = (renderToks (g s).1).data.length := rfl
    have hwlen : ((renderToks (g s).1).data ++ [Char.ofNat 0]).length ≤ 16383 := by
      simp only [List.length_append, List.length_cons, List.length_nil]
      omega
    have htl : (buf.take (buf.length - 1)).length = 16383 := by
      simp [List.length_take, hlen]
    have hdrop : (setLast buf '|').drop
        ((renderToks (g s).1).data ++ [Char.ofNat 0]).length =
        (buf.take (buf.length - 1)).drop
          (((renderToks (g s).1).data ++ [Char.ofNat 0]).length) ++ ['|'] := by
      rw [setLast, List.drop_append_of_le_length (by rw [htl]; exact hwlen)]
    have hlast : (writeChars (setLast buf '|')
        ((renderToks (g s).1).data ++ [Char.ofNat 0])).getLastD '|' = '|' := by
      rw [writeChars, hdrop, ← List.append_assoc]
      exact List.getLastD_concat _ _ _
    have hlast2 : (writeChars (setLast buf '|')
        ((renderToks (g s).1).data ++ [Char.ofNat 0])).getLast?.getD '|' = '|' := by
      simpa [List.getLastD_eq_getLast?] using hlast
    simp [hlast, hlast2]

/-- Witness for C6 at a concrete input, also checking concretely that the
RA8 generator's output does fit the buffer. -/
theorem c6_canary_detection_witness :
    ((List.replicate 16384 ' ').length = 16384 ∧ GX_CTF_RA8 ∈ recognizedFormats ∧
      (renderToks (runEncoder GX_CTF_RA8 initGenState).1).length + 1 < 16384) ∧
    (((canaryMsg ∈ (GenerateEncodingShader GX_CTF_RA8 initGenState
          (List.replicate 16384 ' ')).panics) ↔
        (GenerateEncodingShader GX_CTF_RA8 initGenState
          (List.replicate 16384 ' ')).buffer.getLastD '|' ≠ '|') ∧
      ((renderToks (GenerateEncodingShader GX_CTF_RA8 initGenState
          (List.replicate 16384 ' ')).toks).length + 1 < 16384 →
        canaryMsg ∉ (GenerateEncodingShader GX_CTF_RA8 initGenState
          (List.replicate 16384 ' ')).panics)) :=
  ⟨⟨by rw [List.length_replicate], by decide, by decide⟩,
    c6_canary_detection GX_CTF_RA8 initGenState (List.replicate 16384 ' ')
      (by rw [List.length_replicate]) (by decide)⟩

end Ishiiruka
